import Mathlib

/-
Verification of the HeyGen API client layer (src/heygen_mcp/client.py and
src/heygen_mcp/models/*.py): a shallow embedding of the request/response
transformation pipeline with retry policy, and theorems settling the
specification's claims about it.

Modelling conventions:
- HTTP attempt outcomes (status + body text + parsed JSON, timeout, network
  error) are supplied by the environment as a list; the retry loop consumes
  them in order, one per attempt.
- Python exceptions are modelled by explicit result constructors; a client
  method that catches every exception becomes a total Lean function.
- Python truthiness is made explicit: an Optional[str] is truthy when it is
  some non-empty string; a pydantic BaseModel instance is always truthy; a
  list is truthy when non-empty.
- Strings produced by str(exc) for library-generated exceptions whose exact
  wording no claim depends on are abbreviated (marked at each site); strings
  whose exact content the source constructs (f-strings) are modelled verbatim.
-/

set_option autoImplicit false

namespace HeyGenMCP

universe u v

/-- Retry configuration constant, client.py line 64. -/
def RETRY_MAX_ATTEMPTS : Nat := 3

/-- Retry configuration constant, client.py line 65. -/
def RETRY_MIN_WAIT_SECONDS : Nat := 1

/-- Retry configuration constant, client.py line 66. -/
def RETRY_MAX_WAIT_SECONDS : Nat := 10

/-- HTTP status codes that should trigger a retry, client.py line 69. -/
def RETRYABLE_STATUS_CODES : List Nat := [408, 429, 500, 502, 503, 504]

/-- Python truthiness of an Optional[str]: None and the empty string are
falsy, every other string truthy. -/
def pyStrOptTruthy : Option String → Bool
  | none => false
  | some s => !(s == "")

/-- Outcome of pydantic model validation (model_validate) together with JSON
decoding (response.json()): either a validated value or a raised exception
(ValidationError / JSONDecodeError), whose message is carried. Both failure
kinds reach the same generic except-Exception handler in the client. -/
inductive Parsed (δ : Type u) where
  | valid (v : δ)
  | invalid (msg : String)
  deriving Repr, DecidableEq

/-- One HTTP attempt outcome as observed by the inner request function
(client.py lines 172-192): a response with status code, body text and parsed
body, a timeout (httpx.TimeoutException), or a non-timeout network error
(httpx.RequestError). -/
inductive Attempt (β : Type u) where
  | response (code : Nat) (text : String) (body : β)
  | timeout (msg : String)
  | netError (msg : String)
  deriving Repr, DecidableEq

/-- Terminal outcome of one logical call through _make_request_with_retry
(client.py lines 137-202). statusError models httpx.HTTPStatusError carrying
the status code, the exception message str(e), and the response text that
exc.response.text would yield in the outer handler. There is deliberately no
RetryError constructor: because the tenacity decorator is configured with
reraise=True, exhaustion re-raises the last attempt's exception and RetryError
is never produced. -/
inductive TransportResult (β : Type u) where
  | ok (body : β)
  | statusError (code : Nat) (excMsg : String) (respText : String)
  | timeoutErr (msg : String)
  | requestErr (msg : String)
  deriving Repr, DecidableEq

/-- Abbreviates the message httpx generates for HTTPStatusError raised by
response.raise_for_status(); its exact wording is an httpx implementation
detail on which no modelled behaviour depends. -/
def httpxStatusText (code : Nat) : String :=
  "HTTP status error " ++ toString code

/-- Backoff delay before the retry that follows failed attempt number n
(1-based), from tenacity wait_exponential(multiplier=1, min=minW, max=maxW)
as configured at client.py lines 164-168. Tenacity computes
multiplier * exp_base ^ (attempt_number - 1) clamped into [min, max], and
consults the wait while attempt_number is still the just-failed attempt, so
the wait is max(min_wait, min(max_wait, 2 ^ (n - 1))); under the default
configuration the successive delays are 1, 2, 4, 8, 10, 10, ... -/
def backoffWait (minW maxW n : Nat) : Nat :=
  max minW (min maxW (2 ^ (n - 1)))

/-- The retry loop of _make_request_with_retry (client.py lines 161-202),
driven by tenacity: retry on RetryableHTTPError (a response whose status is
in RETRYABLE_STATUS_CODES, client.py lines 185-189) and on timeout, stop
after maxR attempts, reraise the last exception on exhaustion; an exhausted
RetryableHTTPError is converted (lines 196-202) to an HTTPStatusError whose
message is the f-string built at line 188 and whose synthesized response has
empty text. Any other non-2xx status raises HTTPStatusError immediately via
raise_for_status; a non-timeout network error propagates immediately.
Arguments: attempt number n (1-based), then the environment's attempt
outcomes. Returns (terminal result, list of delays slept between attempts,
number of HTTP attempts made). The empty-list case models an environment
that supplied too few outcomes and is unreachable when enough are given. -/
def retryLoop {β : Type u} (maxR minW maxW : Nat) :
    Nat → List (Attempt β) → TransportResult β × List Nat × Nat
  | _, [] => (.requestErr "no attempt outcome supplied", [], 0)
  | n, .response code text body :: rest =>
    if code ∈ RETRYABLE_STATUS_CODES then
      if n < maxR then
        let r := retryLoop maxR minW maxW (n + 1) rest
        (r.1, backoffWait minW maxW n :: r.2.1, r.2.2 + 1)
      else
        (.statusError code ("HTTP " ++ toString code ++ ": " ++ text.take 200) "", [], 1)
    else if 200 ≤ code ∧ code < 300 then
      (.ok body, [], 1)
    else
      (.statusError code (httpxStatusText code) text, [], 1)
  | n, .timeout msg :: rest =>
    if n < maxR then
      let r := retryLoop maxR minW maxW (n + 1) rest
      (r.1, backoffWait minW maxW n :: r.2.1, r.2.2 + 1)
    else
      (.timeoutErr msg, [], 1)
  | _, .netError msg :: _ => (.requestErr msg, [], 1)

/-- A validated API response in the BaseHeyGenResponse-with-data shape used
by every operation routed through _handle_api_request: an optional data
payload and an optional upstream error string (models/base.py and the
per-operation response classes). -/
structure ApiResponse (σ : Type u) where
  data : Option σ
  error : Option String
  deriving Repr, DecidableEq

/-- The uniform outward-facing result: an MCP response object with an
optional data payload and the optional error field inherited from
BaseHeyGenResponse. -/
structure MCPResult (α : Type u) where
  data : Option α
  error : Option String
  deriving Repr, DecidableEq

/-- The branch of _handle_api_request (client.py lines 257-260) taken when
the data field is absent or falsy: propagate a truthy upstream error string,
otherwise fall back to the operation-specific message. -/
def errorFallback {α : Type u} (err : Option String) (errorMsg : String) : MCPResult α :=
  if pyStrOptTruthy err then ⟨none, err⟩ else ⟨none, some errorMsg⟩

/-- The generic handler _handle_api_request (client.py lines 229-276):
truthy data is transformed; otherwise a truthy error string is propagated
verbatim, else the fallback message is used; every caught exception becomes
an error result with the exact f-string prefix of the corresponding except
branch (lines 267-276). The except-RetryError branch (lines 262-266) is
unreachable — reraise=True means tenacity never raises RetryError — so it
has no counterpart here. -/
def handleApiRequest {σ : Type u} {α : Type v} (truthy : σ → Bool)
    (transform : σ → MCPResult α) (errorMsg : String) :
    TransportResult (Parsed (ApiResponse σ)) → MCPResult α
  | .ok (.valid resp) =>
    match resp.data with
    | some d => if truthy d then transform d else errorFallback resp.error errorMsg
    | none => errorFallback resp.error errorMsg
  | .ok (.invalid msg) => ⟨none, some ("An unexpected error occurred: " ++ msg)⟩
  | .statusError code _ respText =>
    ⟨none, some ("HTTP Error: " ++ toString code ++ " - " ++ respText)⟩
  | .timeoutErr msg => ⟨none, some ("Request timed out: " ++ msg)⟩
  | .requestErr msg => ⟨none, some ("HTTP Request failed: " ++ msg)⟩

/-- Information about an available voice, models/voice.py. -/
structure VoiceInfo where
  voice_id : String
  language : String
  gender : String
  name : String
  preview_audio : Option String
  support_pause : Bool
  emotion_support : Bool
  support_interactive_avatar : Bool
  deriving Repr, DecidableEq

/-- Container for the voice list from the API, models/voice.py. -/
structure VoicesData where
  voices : List VoiceInfo
  deriving Repr, DecidableEq

/-- The transform_data closure of get_voices (client.py lines 357-358):
voices=data.voices[:100] if data.voices else None, with no error set. -/
def voicesTransform (d : VoicesData) : MCPResult (List VoiceInfo) :=
  ⟨if d.voices.isEmpty then none else some (d.voices.take 100), none⟩

/-- get_voices (client.py lines 351-366): the generic handler applied to the
voices transform. A validated VoicesData is a pydantic BaseModel instance
and hence always truthy. -/
def getVoices : TransportResult (Parsed (ApiResponse VoicesData)) → MCPResult (List VoiceInfo) :=
  handleApiRequest (fun _ => true) voicesTransform "No voices found."

/-- Quota details from the API, models/user.py; every field optional. -/
structure QuotaDetails where
  api : Option Int := none
  streaming_avatar : Option Int := none
  streaming_avatar_instance_quota : Option Int := none
  seat : Option Int := none
  avatar_ivi : Option Int := none
  personalized_video_ivi : Option Int := none
  plan_credit : Option Int := none
  deriving Repr, DecidableEq

/-- Remaining quota information, models/user.py: remaining_quota is a
required int. -/
structure RemainingQuota where
  remaining_quota : Int
  details : QuotaDetails
  deriving Repr, DecidableEq

/-- The transform_data closure of get_remaining_credits (client.py lines
310-311): remaining_credits = int(data.remaining_quota / 60). Python divides
with float true division and int() truncates toward zero; for every quota
value V with |V| ≤ 2^53 the float quotient rounds within 1/60 of the exact
value, so int(V/60) equals the exact quotient truncated toward zero, which
is Lean's Int.tdiv. Truncating integer division therefore embeds the source
exactly on that range (and the range covers every realistic quota). -/
def creditsTransform (d : RemainingQuota) : MCPResult Int :=
  ⟨some (Int.tdiv d.remaining_quota 60), none⟩

/-- get_remaining_credits (client.py lines 304-319): the generic handler
applied to the credits transform. -/
def getRemainingCredits : TransportResult (Parsed (ApiResponse RemainingQuota)) → MCPResult Int :=
  handleApiRequest (fun _ => true) creditsTransform "No quota information found."

/-- API response for deleting an asset, models/asset.py: only the error
field influences control flow in delete_asset; the unread Dict payload is
omitted. -/
structure AssetDeleteResponse where
  code : Option Int := none
  message : Option String := none
  error : Option String := none
  deriving Repr, DecidableEq

/-- MCP response for deleting an asset, models/asset.py: success defaults to
False. -/
structure MCPAssetDeleteResponse where
  error : Option String := none
  success : Bool := false
  asset_id : Option String := none
  deriving Repr, DecidableEq

/-- delete_asset (client.py lines 743-777): a truthy parsed error yields an
error result with success=False; otherwise success=True with the asset id.
HTTPStatusError and every other exception are caught into error results with
the exact message prefixes of the source; str(exc) itself is carried by the
transport result. -/
def deleteAsset (assetId : String) :
    TransportResult (Parsed AssetDeleteResponse) → MCPAssetDeleteResponse
  | .ok (.valid p) =>
    if pyStrOptTruthy p.error then ⟨p.error, false, none⟩
    else ⟨none, true, some assetId⟩
  | .ok (.invalid msg) => ⟨some ("Error deleting asset: " ++ msg), false, none⟩
  | .statusError _ excMsg _ => ⟨some ("Failed to delete asset: " ++ excMsg), false, none⟩
  | .timeoutErr msg => ⟨some ("Error deleting asset: " ++ msg), false, none⟩
  | .requestErr msg => ⟨some ("Error deleting asset: " ++ msg), false, none⟩

/-- Folder information from the HeyGen API, models/folder.py. -/
structure Folder where
  id : String
  name : String
  parent_id : Option String := none
  project_type : Option String := none
  is_trash : Bool := false
  created_ts : Option Int := none
  updated_ts : Option Int := none
  direct_children_count : Option Int := none
  creator_username : Option String := none
  deriving Repr, DecidableEq

/-- API response for updating a folder, models/folder.py (BaseHeyGenResponse
with an optional Folder payload). -/
structure FolderUpdateResponse where
  data : Option Folder := none
  error : Option String := none
  deriving Repr, DecidableEq

/-- API response for trash/restore folder operations, models/folder.py; the
dict payload is never read by the client and is omitted. -/
structure FolderTrashRestoreResponse where
  error : Option String := none
  deriving Repr, DecidableEq

/-- MCP response wrapper for updating a folder, models/folder.py. -/
structure MCPFolderUpdateResponse where
  error : Option String := none
  folder_id : Option String := none
  success : Bool := false
  deriving Repr, DecidableEq

/-- MCP response wrapper for trashing a folder, models/folder.py. -/
structure MCPFolderTrashResponse where
  error : Option String := none
  folder_id : Option String := none
  success : Bool := false
  deriving Repr, DecidableEq

/-- MCP response wrapper for restoring a folder, models/folder.py. -/
structure MCPFolderRestoreResponse where
  error : Option String := none
  folder_id : Option String := none
  success : Bool := false
  deriving Repr, DecidableEq

/-- update_folder (client.py lines 840-876): truthy parsed error yields an
error result with success=False, otherwise success=True with the folder id;
exceptions become error results with the source's message prefixes. -/
def updateFolder (folderId : String) :
    TransportResult (Parsed FolderUpdateResponse) → MCPFolderUpdateResponse
  | .ok (.valid p) =>
    if pyStrOptTruthy p.error then ⟨p.error, none, false⟩
    else ⟨none, some folderId, true⟩
  | .ok (.invalid msg) => ⟨some ("Error updating folder: " ++ msg), none, false⟩
  | .statusError _ excMsg _ => ⟨some ("Failed to update folder: " ++ excMsg), none, false⟩
  | .timeoutErr msg => ⟨some ("Error updating folder: " ++ msg), none, false⟩
  | .requestErr msg => ⟨some ("Error updating folder: " ++ msg), none, false⟩

/-- trash_folder (client.py lines 878-912): same flow as update_folder with
its own message prefixes. -/
def trashFolder (folderId : String) :
    TransportResult (Parsed FolderTrashRestoreResponse) → MCPFolderTrashResponse
  | .ok (.valid p) =>
    if pyStrOptTruthy p.error then ⟨p.error, none, false⟩
    else ⟨none, some folderId, true⟩
  | .ok (.invalid msg) => ⟨some ("Error trashing folder: " ++ msg), none, false⟩
  | .statusError _ excMsg _ => ⟨some ("Failed to trash folder: " ++ excMsg), none, false⟩
  | .timeoutErr msg => ⟨some ("Error trashing folder: " ++ msg), none, false⟩
  | .requestErr msg => ⟨some ("Error trashing folder: " ++ msg), none, false⟩

/-- restore_folder (client.py lines 914-948): same flow as trash_folder with
its own message prefixes. -/
def restoreFolder (folderId : String) :
    TransportResult (Parsed FolderTrashRestoreResponse) → MCPFolderRestoreResponse
  | .ok (.valid p) =>
    if pyStrOptTruthy p.error then ⟨p.error, none, false⟩
    else ⟨none, some folderId, true⟩
  | .ok (.invalid msg) => ⟨some ("Error restoring folder: " ++ msg), none, false⟩
  | .statusError _ excMsg _ => ⟨some ("Failed to restore folder: " ++ excMsg), none, false⟩
  | .timeoutErr msg => ⟨some ("Error restoring folder: " ++ msg), none, false⟩
  | .requestErr msg => ⟨some ("Error restoring folder: " ++ msg), none, false⟩

/-- Response data from asset upload, models/asset.py. -/
structure AssetUploadData where
  asset_id : Option String := none
  url : Option String := none
  deriving Repr, DecidableEq

/-- API response for asset upload, models/asset.py. -/
structure AssetUploadResponse where
  code : Option Int := none
  data : Option AssetUploadData := none
  message : Option String := none
  error : Option String := none
  deriving Repr, DecidableEq

/-- MCP response for asset upload, models/asset.py. -/
structure MCPAssetUploadResponse where
  error : Option String := none
  asset_id : Option String := none
  url : Option String := none
  deriving Repr, DecidableEq

/-- Environment outcome for one upload call: the file may be missing
(open raises FileNotFoundError before any network activity), or the single
POST yields a response, a timeout, or a network error. -/
inductive UploadOutcome where
  | fileMissing
  | response (code : Nat) (text : String) (body : Parsed AssetUploadResponse)
  | timeout (msg : String)
  | netError (msg : String)
  deriving Repr, DecidableEq

/-- upload_asset (client.py lines 643-717). The method performs exactly one
POST with no retry decorator: a retryable status raises RetryableHTTPError
(lines 690-694) which nothing retries, so it falls into the generic
except-Exception branch as "Upload error: HTTP {code}: {text[:200]}"; any
other non-2xx status raises HTTPStatusError, caught as "Upload failed: ...";
on 2xx the parsed body is checked error-first, then data, then the
no-data fallback. The function consumes only the head of the environment's
outcome list — later outcomes model responses a retry would have seen, and
are never consulted. Returns (result, number of HTTP attempts made). The
str of HTTPStatusError is abbreviated via httpxStatusText. -/
def uploadAsset (filePath : String) : List UploadOutcome → MCPAssetUploadResponse × Nat
  | [] => (⟨some "no outcome supplied", none, none⟩, 0)
  | o :: _ =>
    match o with
    | .fileMissing => (⟨some ("File not found: " ++ filePath), none, none⟩, 0)
    | .response code text body =>
      if code ∈ RETRYABLE_STATUS_CODES then
        (⟨some ("Upload error: HTTP " ++ toString code ++ ": " ++ text.take 200),
          none, none⟩, 1)
      else if 200 ≤ code ∧ code < 300 then
        match body with
        | .invalid msg => (⟨some ("Upload error: " ++ msg), none, none⟩, 1)
        | .valid p =>
          if pyStrOptTruthy p.error then (⟨p.error, none, none⟩, 1)
          else
            match p.data with
            | some d => (⟨none, d.asset_id, d.url⟩, 1)
            | none => (⟨some "Upload failed: No data returned.", none, none⟩, 1)
      else
        (⟨some ("Upload failed: " ++ httpxStatusText code), none, none⟩, 1)
    | .timeout msg => (⟨some ("Upload error: " ++ msg), none, none⟩, 1)
    | .netError msg => (⟨some ("Upload error: " ++ msg), none, none⟩, 1)

/-- A sample voice used by concrete witnesses. -/
def sampleVoice : VoiceInfo :=
  ⟨"voice-1", "English", "female", "Ava", none, true, false, true⟩

/-- A string with a non-empty left part is non-empty. -/
theorem append_ne_empty_of_left (p m : String) (hp : p ≠ "") : p ++ m ≠ "" := by
  intro h
  have h2 : (p ++ m).data = [] := by rw [h]
  rw [String.data_append] at h2
  exact hp (String.ext ((List.append_eq_nil.mp h2).1.trans rfl))

/-- The data-absent-or-falsy branch of the handler always produces an empty
data field and a non-empty error string. -/
theorem errorFallback_spec {α : Type} (err : Option String) (errorMsg : String)
    (hmsg : errorMsg ≠ "") :
    (errorFallback (α := α) err errorMsg).data = none ∧
      ∃ s, (errorFallback (α := α) err errorMsg).error = some s ∧ s ≠ "" := by
  unfold errorFallback
  cases err with
  | none => exact ⟨by simp [pyStrOptTruthy], errorMsg, by simp [pyStrOptTruthy], hmsg⟩
  | some s =>
    by_cases hs : s = ""
    · subst hs
      exact ⟨by simp [pyStrOptTruthy], errorMsg, by simp [pyStrOptTruthy], hmsg⟩
    · exact ⟨by simp [pyStrOptTruthy, hs], s, by simp [pyStrOptTruthy, hs], hs⟩

/-- C1 (amended): for every operation routed through the generic handler
whose transform never populates the error field and whose fallback message is
non-empty, the returned Result never carries both data and error, and every
populated error is a non-empty string; a Result with neither data nor error
can arise only when the validated body's data field was truthy and the
transformation produced empty content. -/
theorem c1_result_never_both {σ α : Type} (truthy : σ → Bool)
    (transform : σ → MCPResult α) (errorMsg : String)
    (hmsg : errorMsg ≠ "") (htr : ∀ d, (transform d).error = none)
    (tr : TransportResult (Parsed (ApiResponse σ))) :
    ((handleApiRequest truthy transform errorMsg tr).data = none ∨
      (handleApiRequest truthy transform errorMsg tr).error = none) ∧
    (∀ s, (handleApiRequest truthy transform errorMsg tr).error = some s → s ≠ "") ∧
    ((handleApiRequest truthy transform errorMsg tr).data = none ∧
        (handleApiRequest truthy transform errorMsg tr).error = none →
      ∃ resp d, tr = TransportResult.ok (Parsed.valid resp) ∧
        resp.data = some d ∧ truthy d = true) := by
  rcases tr with b | ⟨code, excMsg, respText⟩ | msg | msg
  · rcases b with resp | msg
    · rcases resp with ⟨dataOpt, err⟩
      rcases dataOpt with _ | d
      · obtain ⟨h1, s, h2, h3⟩ :=
          errorFallback_spec (α := α) err errorMsg hmsg
        refine ⟨Or.inl ?_, ?_, ?_⟩
        · simpa [handleApiRequest] using h1
        · intro s' hs'
          simp only [handleApiRequest] at hs'
          rw [h2] at hs'
          exact Option.some_injective _ hs' ▸ h3
        · intro ⟨_, hne⟩
          simp only [handleApiRequest] at hne
          rw [h2] at hne
          exact absurd hne (by simp)
      · by_cases hd : truthy d = true
        · refine ⟨Or.inr ?_, ?_, ?_⟩
          · simpa [handleApiRequest, hd] using htr d
          · intro s' hs'
            simp only [handleApiRequest, hd, if_pos] at hs'
            rw [htr d] at hs'
            exact absurd hs' (by simp)
          · intro _
            exact ⟨⟨some d, err⟩, d, rfl, rfl, hd⟩
        · obtain ⟨h1, s, h2, h3⟩ :=
            errorFallback_spec (α := α) err errorMsg hmsg
          have hd' : truthy d = false := by
            revert hd; cases truthy d <;> simp
          refine ⟨Or.inl ?_, ?_, ?_⟩
          · simpa [handleApiRequest, hd'] using h1
          · intro s' hs'
            simp only [handleApiRequest, hd', Bool.false_eq_true, if_false] at hs'
            rw [h2] at hs'
            exact Option.some_injective _ hs' ▸ h3
          · intro ⟨_, hne⟩
            simp only [handleApiRequest, hd', Bool.false_eq_true, if_false] at hne
            rw [h2] at hne
            exact absurd hne (by simp)
    · refine ⟨Or.inl rfl, ?_, ?_⟩
      · intro s' hs'
        simp only [handleApiRequest] at hs'
        exact Option.some_injective _ hs' ▸
          append_ne_empty_of_left "An unexpected error occurred: " msg (by decide)
      · intro ⟨_, hne⟩
        simp only [handleApiRequest] at hne
        exact absurd hne (by simp)
  · refine ⟨Or.inl rfl, ?_, ?_⟩
    · intro s' hs'
      simp only [handleApiRequest] at hs'
      exact Option.some_injective _ hs' ▸
        append_ne_empty_of_left ("HTTP Error: " ++ toString code ++ " - ") respText
          (append_ne_empty_of_left _ _ (append_ne_empty_of_left "HTTP Error: " _ (by decide)))
    · intro ⟨_, hne⟩
      simp only [handleApiRequest] at hne
      exact absurd hne (by simp)
  · refine ⟨Or.inl rfl, ?_, ?_⟩
    · intro s' hs'
      simp only [handleApiRequest] at hs'
      exact Option.some_injective _ hs' ▸
        append_ne_empty_of_left "Request timed out: " msg (by decide)
    · intro ⟨_, hne⟩
      simp only [handleApiRequest] at hne
      exact absurd hne (by simp)
  · refine ⟨Or.inl rfl, ?_, ?_⟩
    · intro s' hs'
      simp only [handleApiRequest] at hs'
      exact Option.some_injective _ hs' ▸
        append_ne_empty_of_left "HTTP Request failed: " msg (by decide)
    · intro ⟨_, hne⟩
      simp only [handleApiRequest] at hne
      exact absurd hne (by simp)

/-- C1 witness: the theorem applied to the voices operation with its concrete
non-empty fallback message and error-free transform, at a timeout outcome. -/
theorem c1_result_never_both_witness :
    ("No voices found." ≠ "") ∧
    ((getVoices (TransportResult.timeoutErr "read timeout")).data = none ∨
      (getVoices (TransportResult.timeoutErr "read timeout")).error = none) :=
  ⟨by decide,
    (c1_result_never_both (fun _ => true) voicesTransform "No voices found."
      (by decide) (fun _ => rfl) (TransportResult.timeoutErr "read timeout")).1⟩

/-- C1 counterexample: a 200 response whose body validates to a VoicesData
with an empty voices list takes the truthy-data branch (the pydantic model
instance is truthy), and the transform maps the empty list to None with no
error, so the returned Result has neither data nor error — refuting the
claim's "never neither". -/
theorem c1_counterexample :
    getVoices (retryLoop 3 1 10 1
        [Attempt.response 200 "" (Parsed.valid ⟨some ⟨[]⟩, none⟩)]).1 =
      ⟨none, none⟩ := by
  rfl

/-- C7 (amended): a success body carrying a non-empty upstream error string
and no data maps to a Result whose error is that string verbatim; the empty
string is falsy in Python and instead produces the operation's fallback
message. -/
theorem c7_upstream_error_verbatim {σ : Type} {α : Type} (truthy : σ → Bool)
    (transform : σ → MCPResult α) (errorMsg : String) (e : String) (he : e ≠ "") :
    handleApiRequest truthy transform errorMsg
      (TransportResult.ok (Parsed.valid ⟨none, some e⟩)) = ⟨none, some e⟩ := by
  simp [handleApiRequest, errorFallback, pyStrOptTruthy, he]

/-- C7 witness: the voices operation with the concrete upstream error
string. -/
theorem c7_upstream_error_verbatim_witness :
    ("quota exceeded" ≠ "") ∧
    getVoices (TransportResult.ok (Parsed.valid ⟨none, some "quota exceeded"⟩)) =
      ⟨none, some "quota exceeded"⟩ :=
  ⟨by decide,
    c7_upstream_error_verbatim (fun _ => true) voicesTransform "No voices found."
      "quota exceeded" (by decide)⟩

/-- C7 counterexample: a success body whose error field is present but equal
to the empty string maps to the fallback message, not to the empty string
verbatim, refuting the claim's "for every such string". -/
theorem c7_counterexample :
    getVoices (TransportResult.ok (Parsed.valid ⟨none, some ""⟩)) =
      ⟨none, some "No voices found."⟩ ∧
    (getVoices (TransportResult.ok (Parsed.valid ⟨none, some ""⟩))).error ≠
      some "" := by
  constructor
  · rfl
  · decide

/-- C9: a voices body with more than 100 voices maps to exactly the first
100 voices of the list, in the same order, with no error. -/
theorem c9_voices_capped_at_100 (vs : List VoiceInfo) (err : Option String)
    (hN : 100 < vs.length) :
    getVoices (TransportResult.ok (Parsed.valid ⟨some ⟨vs⟩, err⟩)) =
      ⟨some (vs.take 100), none⟩ ∧
    (vs.take 100).length = 100 ∧
    (∀ i, i < 100 → (vs.take 100)[i]? = vs[i]?) := by
  have hne : vs.isEmpty = false := by
    cases vs with
    | nil => simp at hN
    | cons a t => rfl
  refine ⟨?_, ?_, ?_⟩
  · simp [getVoices, handleApiRequest, voicesTransform, hne]
  · simp only [List.length_take]
    omega
  · intro i hi
    exact List.getElem?_take_of_lt hi

/-- C9 witness: a concrete list of 101 voices satisfies the hypothesis and
the mapped list is its first 100 elements. -/
theorem c9_voices_capped_at_100_witness :
    (100 < (List.replicate 101 sampleVoice).length) ∧
    getVoices (TransportResult.ok
        (Parsed.valid ⟨some ⟨List.replicate 101 sampleVoice⟩, none⟩)) =
      ⟨some ((List.replicate 101 sampleVoice).take 100), none⟩ :=
  ⟨by simp,
    (c9_voices_capped_at_100 (List.replicate 101 sampleVoice) none (by simp)).1⟩

/-- C8 (amended): the credits mapping computes the remaining quota divided
by 60 and truncated toward zero, which coincides with floor(V / 60) for
every non-negative quota value V; the bound keeps V inside the range where
the source's float division is exactly truncating. -/
theorem c8_credits_floor_of_nonneg (v : Int) (qd : QuotaDetails)
    (err : Option String) (hv : 0 ≤ v) (_hb : v ≤ 2 ^ 53) :
    getRemainingCredits (TransportResult.ok (Parsed.valid ⟨some ⟨v, qd⟩, err⟩)) =
      ⟨some (Int.fdiv v 60), none⟩ := by
  have h : Int.fdiv v 60 = Int.tdiv v 60 := Int.fdiv_eq_tdiv hv (by omega)
  simp [getRemainingCredits, handleApiRequest, creditsTransform, h]

/-- C8 witness: a quota of 150 seconds maps to floor(150 / 60) = 2
credits. -/
theorem c8_credits_floor_of_nonneg_witness :
    ((0 : Int) ≤ 150 ∧ (150 : Int) ≤ 2 ^ 53) ∧
    getRemainingCredits (TransportResult.ok
        (Parsed.valid ⟨some ⟨150, {}⟩, none⟩)) = ⟨some (Int.fdiv 150 60), none⟩ :=
  ⟨⟨by decide, by decide⟩,
    c8_credits_floor_of_nonneg 150 {} none (by decide) (by decide)⟩

/-- C8 counterexample: for the quota value -61 the code truncates toward
zero and returns -1 remaining credits, while floor(-61 / 60) = -2, refuting
the claim for negative integers. -/
theorem c8_counterexample :
    getRemainingCredits (TransportResult.ok
        (Parsed.valid ⟨some ⟨-61, {}⟩, none⟩)) = ⟨some (-1), none⟩ ∧
    Int.fdiv (-61) 60 = -2 ∧ ((-1 : Int) ≠ -2) := by
  refine ⟨rfl, by decide, by decide⟩

/-- C10: for asset deletion and folder update/trash/restore, on every
possible outcome the success flag is true exactly when the error field is
absent. -/
theorem c10_success_iff_no_error :
    (∀ (assetId : String) (tr : TransportResult (Parsed AssetDeleteResponse)),
      (deleteAsset assetId tr).success = true ↔ (deleteAsset assetId tr).error = none) ∧
    (∀ (folderId : String) (tr : TransportResult (Parsed FolderUpdateResponse)),
      (updateFolder folderId tr).success = true ↔ (updateFolder folderId tr).error = none) ∧
    (∀ (folderId : String) (tr : TransportResult (Parsed FolderTrashRestoreResponse)),
      (trashFolder folderId tr).success = true ↔ (trashFolder folderId tr).error = none) ∧
    (∀ (folderId : String) (tr : TransportResult (Parsed FolderTrashRestoreResponse)),
      (restoreFolder folderId tr).success = true ↔ (restoreFolder folderId tr).error = none) := by
  refine ⟨?_, ?_, ?_, ?_⟩ <;>
    · intro fid tr
      rcases tr with b | ⟨code, excMsg, respText⟩ | msg | msg
      · rcases b with p | msg
        · cases he : p.error with
          | none =>
            simp [deleteAsset, updateFolder, trashFolder, restoreFolder,
              pyStrOptTruthy, he]
          | some e =>
            by_cases hs : e = ""
            · subst hs
              simp [deleteAsset, updateFolder, trashFolder, restoreFolder,
                pyStrOptTruthy, he]
            · simp [deleteAsset, updateFolder, trashFolder, restoreFolder,
                pyStrOptTruthy, he, hs]
        · simp [deleteAsset, updateFolder, trashFolder, restoreFolder]
      · simp [deleteAsset, updateFolder, trashFolder, restoreFolder]
      · simp [deleteAsset, updateFolder, trashFolder, restoreFolder]
      · simp [deleteAsset, updateFolder, trashFolder, restoreFolder]

/-- C5: a first response whose status is non-2xx and not in the retryable
set terminates the call after exactly one HTTP attempt with no retry delay,
and the mapped error Result carries the status code (and the response
text). -/
theorem c5_fatal_status_immediate {σ : Type} {α : Type} (truthy : σ → Bool)
    (transform : σ → MCPResult α) (errorMsg : String)
    (maxR minW maxW code : Nat) (text : String)
    (body : Parsed (ApiResponse σ))
    (rest : List (Attempt (Parsed (ApiResponse σ))))
    (hnr : code ∉ RETRYABLE_STATUS_CODES) (hns : ¬(200 ≤ code ∧ code < 300)) :
    retryLoop maxR minW maxW 1 (Attempt.response code text body :: rest) =
      (TransportResult.statusError code (httpxStatusText code) text, [], 1) ∧
    handleApiRequest truthy transform errorMsg
        (retryLoop maxR minW maxW 1 (Attempt.response code text body :: rest)).1 =
      ⟨none, some ("HTTP Error: " ++ toString code ++ " - " ++ text)⟩ := by
  have h1 : retryLoop maxR minW maxW 1 (Attempt.response code text body :: rest) =
      (TransportResult.statusError code (httpxStatusText code) text, [], 1) := by
    simp [retryLoop, hnr, hns]
  exact ⟨h1, by rw [h1]; rfl⟩

/-- C5 witness: a single 404 response on the voices operation. -/
theorem c5_fatal_status_immediate_witness :
    (404 ∉ RETRYABLE_STATUS_CODES ∧ ¬(200 ≤ 404 ∧ 404 < 300)) ∧
    getVoices (retryLoop RETRY_MAX_ATTEMPTS RETRY_MIN_WAIT_SECONDS
        RETRY_MAX_WAIT_SECONDS 1
        [Attempt.response 404 "Not Found"
          (Parsed.valid (⟨none, none⟩ : ApiResponse VoicesData))]).1 =
      ⟨none, some ("HTTP Error: " ++ toString 404 ++ " - " ++ "Not Found")⟩ :=
  ⟨⟨by decide, by decide⟩,
    (c5_fatal_status_immediate (fun _ => true) voicesTransform "No voices found."
      RETRY_MAX_ATTEMPTS RETRY_MIN_WAIT_SECONDS RETRY_MAX_WAIT_SECONDS 404
      "Not Found" (Parsed.valid ⟨none, none⟩) [] (by decide) (by decide)).2⟩

/-- C4 (amended): with a configured maximum of at least 4 attempts, three
consecutive 503 responses followed by a 200 succeed: the 200 body's data is
returned, 4 attempts are made, and the delays slept between successive
attempts are [1, 2, 4] — strictly increasing and within the configured
bounds. With the default maximum of 3 attempts the three 503s already
exhaust the retries (see the counterexample). -/
theorem c4_three_503_then_200 (maxR : Nat) (h4 : 4 ≤ maxR)
    (vs : List VoiceInfo) (hvs : vs ≠ []) (err : Option String)
    (t1 t2 t3 t4 : String) (b1 b2 b3 : Parsed (ApiResponse VoicesData))
    (rest : List (Attempt (Parsed (ApiResponse VoicesData)))) :
    retryLoop maxR RETRY_MIN_WAIT_SECONDS RETRY_MAX_WAIT_SECONDS 1
        (Attempt.response 503 t1 b1 :: Attempt.response 503 t2 b2 ::
          Attempt.response 503 t3 b3 ::
          Attempt.response 200 t4 (Parsed.valid ⟨some ⟨vs⟩, err⟩) :: rest) =
      (TransportResult.ok (Parsed.valid ⟨some ⟨vs⟩, err⟩), [1, 2, 4], 4) ∧
    List.Chain' (· < ·) [1, 2, 4] ∧
    (∀ s ∈ [1, 2, 4], RETRY_MIN_WAIT_SECONDS ≤ s ∧ s ≤ RETRY_MAX_WAIT_SECONDS) ∧
    getVoices (retryLoop maxR RETRY_MIN_WAIT_SECONDS RETRY_MAX_WAIT_SECONDS 1
        (Attempt.response 503 t1 b1 :: Attempt.response 503 t2 b2 ::
          Attempt.response 503 t3 b3 ::
          Attempt.response 200 t4 (Parsed.valid ⟨some ⟨vs⟩, err⟩) :: rest)).1 =
      ⟨some (vs.take 100), none⟩ := by
  have h1 : 1 < maxR := by omega
  have h2 : 2 < maxR := by omega
  have h3 : 3 < maxR := by omega
  have hloop : retryLoop maxR RETRY_MIN_WAIT_SECONDS RETRY_MAX_WAIT_SECONDS 1
      (Attempt.response 503 t1 b1 :: Attempt.response 503 t2 b2 ::
        Attempt.response 503 t3 b3 ::
        Attempt.response 200 t4 (Parsed.valid ⟨some ⟨vs⟩, err⟩) :: rest) =
      (TransportResult.ok (Parsed.valid ⟨some ⟨vs⟩, err⟩), [1, 2, 4], 4) := by
    simp [retryLoop, backoffWait, h1, h2, h3, RETRYABLE_STATUS_CODES,
      RETRY_MIN_WAIT_SECONDS, RETRY_MAX_WAIT_SECONDS]
  have hne : vs.isEmpty = false := by
    cases vs with
    | nil => exact absurd rfl hvs
    | cons a t => rfl
  refine ⟨hloop, by simp [List.chain'_cons], by decide, ?_⟩
  rw [hloop]
  simp [getVoices, handleApiRequest, voicesTransform, hne]

/-- C4 witness: the theorem at a maximum of 4 attempts and a one-voice 200
body. -/
theorem c4_three_503_then_200_witness :
    ((4 : Nat) ≤ 4 ∧ [sampleVoice] ≠ []) ∧
    retryLoop 4 RETRY_MIN_WAIT_SECONDS RETRY_MAX_WAIT_SECONDS 1
        [Attempt.response 503 "" (Parsed.valid (⟨none, none⟩ : ApiResponse VoicesData)),
          Attempt.response 503 "" (Parsed.valid (⟨none, none⟩ : ApiResponse VoicesData)),
          Attempt.response 503 "" (Parsed.valid (⟨none, none⟩ : ApiResponse VoicesData)),
          Attempt.response 200 ""
            (Parsed.valid (⟨some ⟨[sampleVoice]⟩, none⟩ : ApiResponse VoicesData))] =
      (TransportResult.ok
        (Parsed.valid (⟨some ⟨[sampleVoice]⟩, none⟩ : ApiResponse VoicesData)),
        [1, 2, 4], 4) :=
  ⟨⟨by decide, by decide⟩,
    (c4_three_503_then_200 4 (by decide) [sampleVoice] (by decide) none
      "" "" "" "" (Parsed.valid ⟨none, none⟩) (Parsed.valid ⟨none, none⟩)
      (Parsed.valid ⟨none, none⟩) []).1⟩

set_option maxRecDepth 8192 in
/-- C4 counterexample: with the default configuration (maximum 3 attempts),
three consecutive 503 responses exhaust the retries — only 3 attempts are
made, the trailing 200 is never requested, and the call returns an error
Result instead of the 200 body's data. -/
theorem c4_counterexample :
    retryLoop RETRY_MAX_ATTEMPTS RETRY_MIN_WAIT_SECONDS RETRY_MAX_WAIT_SECONDS 1
        [Attempt.response 503 "unavailable" (Parsed.valid (⟨none, none⟩ : ApiResponse VoicesData)),
          Attempt.response 503 "unavailable" (Parsed.valid ⟨none, none⟩),
          Attempt.response 503 "unavailable" (Parsed.valid ⟨none, none⟩),
          Attempt.response 200 "" (Parsed.valid ⟨some ⟨[sampleVoice]⟩, none⟩)] =
      (TransportResult.statusError 503 "HTTP 503: unavailable" "", [1, 2], 3) ∧
    getVoices (retryLoop RETRY_MAX_ATTEMPTS RETRY_MIN_WAIT_SECONDS
        RETRY_MAX_WAIT_SECONDS 1
        [Attempt.response 503 "unavailable" (Parsed.valid ⟨none, none⟩),
          Attempt.response 503 "unavailable" (Parsed.valid ⟨none, none⟩),
          Attempt.response 503 "unavailable" (Parsed.valid ⟨none, none⟩),
          Attempt.response 200 "" (Parsed.valid ⟨some ⟨[sampleVoice]⟩, none⟩)]).1 =
      ⟨none, some "HTTP Error: 503 - "⟩ := by
  constructor
  · decide
  · decide

set_option maxRecDepth 8192 in
/-- C3: with the default configuration, a 500 on every attempt exhausts the
retries after 3 attempts (sleeping twice), but the resulting error message
is the fatal-status format "HTTP Error: 500 - " with an empty body excerpt —
it does not mention the exhausted-retries condition. The tenacity decorator
is configured with reraise=True, so the RetryError that the code's docstring
promises (and that the handler's "Request failed after N retries" branch
expects) is never raised: the last RetryableHTTPError is re-raised and
converted to an HTTPStatusError with a synthesized empty response
instead. -/
theorem c3_exhausted_retries_message :
    retryLoop RETRY_MAX_ATTEMPTS RETRY_MIN_WAIT_SECONDS RETRY_MAX_WAIT_SECONDS 1
        [Attempt.response 500 "internal error" (Parsed.valid (⟨none, none⟩ : ApiResponse VoicesData)),
          Attempt.response 500 "internal error" (Parsed.valid ⟨none, none⟩),
          Attempt.response 500 "internal error" (Parsed.valid ⟨none, none⟩)] =
      (TransportResult.statusError 500 "HTTP 500: internal error" "", [1, 2], 3) ∧
    getVoices (retryLoop RETRY_MAX_ATTEMPTS RETRY_MIN_WAIT_SECONDS
        RETRY_MAX_WAIT_SECONDS 1
        [Attempt.response 500 "internal error" (Parsed.valid ⟨none, none⟩),
          Attempt.response 500 "internal error" (Parsed.valid ⟨none, none⟩),
          Attempt.response 500 "internal error" (Parsed.valid ⟨none, none⟩)]).1 =
      ⟨none, some "HTTP Error: 500 - "⟩ := by
  constructor
  · decide
  · decide

/-- C2: every expected failure mode surfaces as a Result with a populated,
non-empty error field and no exception crosses the public boundary (the
modelled operations are total functions over all outcomes). Enumerated for
the generic handler: fatal status or converted retry exhaustion, timeout,
network error, validation/transformation exception, empty body, upstream
error field; and for the upload operation: missing file, non-2xx status
(retryable or fatal), timeout, network error. -/
theorem c2_failures_become_error_results {σ : Type} {α : Type}
    (truthy : σ → Bool) (transform : σ → MCPResult α) (errorMsg : String)
    (hmsg : errorMsg ≠ "") :
    (∀ code excMsg respText, ∃ s,
      (handleApiRequest truthy transform errorMsg
          (TransportResult.statusError code excMsg respText)).error = some s ∧ s ≠ "") ∧
    (∀ msg, ∃ s,
      (handleApiRequest truthy transform errorMsg
          (TransportResult.timeoutErr msg)).error = some s ∧ s ≠ "") ∧
    (∀ msg, ∃ s,
      (handleApiRequest truthy transform errorMsg
          (TransportResult.requestErr msg)).error = some s ∧ s ≠ "") ∧
    (∀ msg, ∃ s,
      (handleApiRequest truthy transform errorMsg
          (TransportResult.ok (Parsed.invalid msg))).error = some s ∧ s ≠ "") ∧
    (∃ s,
      (handleApiRequest truthy transform errorMsg
          (TransportResult.ok (Parsed.valid ⟨none, none⟩))).error = some s ∧ s ≠ "") ∧
    (∀ e, e ≠ "" →
      (handleApiRequest truthy transform errorMsg
          (TransportResult.ok (Parsed.valid ⟨none, some e⟩))).error = some e) ∧
    (∀ filePath rest, ∃ s,
      (uploadAsset filePath (UploadOutcome.fileMissing :: rest)).1.error =
        some s ∧ s ≠ "") ∧
    (∀ filePath code text body rest, ¬(200 ≤ code ∧ code < 300) → ∃ s,
      (uploadAsset filePath
          (UploadOutcome.response code text body :: rest)).1.error = some s ∧ s ≠ "") ∧
    (∀ filePath msg rest, ∃ s,
      (uploadAsset filePath (UploadOutcome.timeout msg :: rest)).1.error =
        some s ∧ s ≠ "") ∧
    (∀ filePath msg rest, ∃ s,
      (uploadAsset filePath (UploadOutcome.netError msg :: rest)).1.error =
        some s ∧ s ≠ "") := by
  refine ⟨?_, ?_, ?_, ?_, ?_, ?_, ?_, ?_, ?_, ?_⟩
  · intro code excMsg respText
    exact ⟨_, rfl,
      append_ne_empty_of_left _ _ (append_ne_empty_of_left _ _
        (append_ne_empty_of_left "HTTP Error: " _ (by decide)))⟩
  · intro msg
    exact ⟨_, rfl, append_ne_empty_of_left "Request timed out: " _ (by decide)⟩
  · intro msg
    exact ⟨_, rfl, append_ne_empty_of_left "HTTP Request failed: " _ (by decide)⟩
  · intro msg
    exact ⟨_, rfl,
      append_ne_empty_of_left "An unexpected error occurred: " _ (by decide)⟩
  · obtain ⟨_, s, h2, h3⟩ := errorFallback_spec (α := α) none errorMsg hmsg
    exact ⟨s, h2, h3⟩
  · intro e he
    simp [handleApiRequest, errorFallback, pyStrOptTruthy, he]
  · intro filePath rest
    exact ⟨_, rfl, append_ne_empty_of_left "File not found: " _ (by decide)⟩
  · intro filePath code text body rest hns
    by_cases hr : code ∈ RETRYABLE_STATUS_CODES
    · refine ⟨"Upload error: HTTP " ++ toString code ++ ": " ++ text.take 200,
        ?_, ?_⟩
      · simp [uploadAsset, hr]
      · exact append_ne_empty_of_left _ _ (append_ne_empty_of_left _ _
          (append_ne_empty_of_left "Upload error: HTTP " _ (by decide)))
    · refine ⟨"Upload failed: " ++ httpxStatusText code, ?_, ?_⟩
      · simp [uploadAsset, hr, hns]
      · exact append_ne_empty_of_left "Upload failed: " _ (by decide)
  · intro filePath msg rest
    exact ⟨_, rfl, append_ne_empty_of_left "Upload error: " _ (by decide)⟩
  · intro filePath msg rest
    exact ⟨_, rfl, append_ne_empty_of_left "Upload error: " _ (by decide)⟩

/-- C2 witness: the voices operation's fallback message is non-empty and a
timeout surfaces as a non-empty error Result. -/
theorem c2_failures_become_error_results_witness :
    ("No voices found." ≠ "") ∧
    ∃ s, (getVoices (TransportResult.timeoutErr "read timed out")).error =
      some s ∧ s ≠ "" :=
  ⟨by decide,
    (c2_failures_become_error_results (fun _ => true) voicesTransform
      "No voices found." (by decide)).2.1 "read timed out"⟩

/-- C6 (amended): upload calls classify retryable statuses with the same
set and truncated body excerpt as JSON-body calls, but perform no retry at
all: a retryable-status response is surfaced immediately as an error Result
after exactly one HTTP attempt, with no backoff slept. -/
theorem c6_upload_retryable_no_retry (filePath text : String) (code : Nat)
    (body : Parsed AssetUploadResponse) (rest : List UploadOutcome)
    (hc : code ∈ RETRYABLE_STATUS_CODES) :
    uploadAsset filePath (UploadOutcome.response code text body :: rest) =
      (⟨some ("Upload error: HTTP " ++ toString code ++ ": " ++ text.take 200),
        none, none⟩, 1) := by
  simp [uploadAsset, hc]

/-- C6 witness: a 503 upload response surfaces immediately. -/
theorem c6_upload_retryable_no_retry_witness :
    (503 ∈ RETRYABLE_STATUS_CODES) ∧
    uploadAsset "photo.png"
        [UploadOutcome.response 503 "unavailable" (Parsed.valid {})] =
      (⟨some ("Upload error: HTTP " ++ toString 503 ++ ": " ++ "unavailable".take 200),
        none, none⟩, 1) :=
  ⟨by decide,
    c6_upload_retryable_no_retry "photo.png" "unavailable" 503
      (Parsed.valid {}) [] (by decide)⟩

set_option maxRecDepth 8192 in
/-- C6 counterexample: an upload that receives a 503 followed by a 200 that
would have succeeded returns an error Result after a single attempt — the
200 is never requested — while the JSON-body retry loop on the same attempt
sequence retries and succeeds. This refutes the claim that uploads share
the bounded retry/backoff behaviour. -/
theorem c6_counterexample :
    uploadAsset "photo.png"
        [UploadOutcome.response 503 "unavailable" (Parsed.valid {}),
          UploadOutcome.response 200 ""
            (Parsed.valid ⟨none, some ⟨some "asset-1", some "https-asset-url"⟩,
              none, none⟩)] =
      (⟨some "Upload error: HTTP 503: unavailable", none, none⟩, 1) ∧
    retryLoop RETRY_MAX_ATTEMPTS RETRY_MIN_WAIT_SECONDS RETRY_MAX_WAIT_SECONDS 1
        [Attempt.response 503 "unavailable"
          (Parsed.valid (⟨none, none⟩ : ApiResponse VoicesData)),
          Attempt.response 200 ""
            (Parsed.valid (⟨some ⟨[sampleVoice]⟩, none⟩ : ApiResponse VoicesData))] =
      (TransportResult.ok
        (Parsed.valid (⟨some ⟨[sampleVoice]⟩, none⟩ : ApiResponse VoicesData)),
        [1], 2) := by
  constructor
  · decide
  · decide

end HeyGenMCP
